import Mathlib

/-!
Verification development for the Capsule Memory Python SDK
(`packages/python/capsule_memory/__init__.py`).

The module is a thin synchronous HTTP client.  We embed it shallowly:

* JSON values are an inductive `Json` (numbers as rationals — the client
  performs no floating-point arithmetic, only equality-with-zero truthiness
  tests, which rationals model exactly).
* Python `dict` values are association lists with unique keys preserved in
  insertion order; `dict.get`, `d[k]` subscription and dict-literal merging
  (`{**a, ...}`) are modelled by `lookupField`, `Json.pyItem`, `Json.pyGetD`
  and `dictInsert`/`pyDict`.
* Python exceptions (`RuntimeError` on HTTP failure, `KeyError` on a missing
  required field, `TypeError`/`AttributeError` on shape mismatches) become an
  `Except PyError` result.
* The network is the environment: every client method takes the
  `HttpResponse` the server would return and produces both the
  `HttpRequest` it sends and the decoded result, as a pair.
* Python truthiness used by the source (`x or y` on optional floats, strings
  and dicts) is modelled by `pyOrFloat`, `pyOrStr`, `pyOrNone`: `None`, `0.0`,
  `""` and `{}` are falsy.
-/

namespace CapsuleMemory

/-- JSON values; numbers are rationals. -/
inductive Json where
  | null : Json
  | bool : Bool → Json
  | num : ℚ → Json
  | str : String → Json
  | arr : List Json → Json
  | obj : List (String × Json) → Json

/-- Python dict lookup (first matching key; dict keys are unique). -/
def lookupField : List (String × Json) → String → Option Json
  | [], _ => none
  | (k, v) :: rest, key => if k = key then some v else lookupField rest key

/-- Inserting a key into a Python dict: an existing key keeps its position and
gets the new value; a new key is appended. -/
def dictInsert : List (String × Json) → String → Json → List (String × Json)
  | [], k, v => [(k, v)]
  | (k', v') :: rest, k, v =>
    if k' = k then (k', v) :: rest else (k', v') :: dictInsert rest k v

/-- A Python dict literal built from a sequence of key/value pairs
(later occurrences of a key overwrite earlier ones, as in `{**a, **b}`). -/
def pyDict (ps : List (String × Json)) : List (String × Json) :=
  ps.foldl (fun d p => dictInsert d p.1 p.2) []

/-- Python errors the client can raise. `requestFailed` is the
`RuntimeError` on HTTP status ≥ 400 (status code and raw body text);
`keyError` is the `KeyError` from subscripting a missing required field. -/
inductive PyError where
  | requestFailed : Nat → String → PyError
  | keyError : String → PyError
  | typeError : PyError
  | attributeError : PyError
deriving DecidableEq

/-- Python `d.get(k, default)` — only dicts have `.get`. -/
def Json.pyGetD : Json → String → Json → Except PyError Json
  | .obj fs, k, d => .ok ((lookupField fs k).getD d)
  | _, _, _ => .error .attributeError

/-- Python `d.get(k)` (default `None`). -/
def Json.pyGet (j : Json) (k : String) : Except PyError Json :=
  j.pyGetD k .null

/-- Python `d[k]`: `KeyError` when the key is absent. -/
def Json.pyItem : Json → String → Except PyError Json
  | .obj fs, k =>
    match lookupField fs k with
    | some v => .ok v
    | none => .error (.keyError k)
  | _, _ => .error .typeError

/-- Python `for x in v` over a decoded JSON value, as used by the list
comprehensions (the source only ever iterates arrays). -/
def Json.asIter : Json → Except PyError (List Json)
  | .arr xs => .ok xs
  | _ => .error .typeError

/-- A Python list comprehension `[f x for x in xs]` over fallible `f`:
elements in order, first failure aborts the whole comprehension. -/
def mapExcept (f : Json → Except PyError α) : List Json → Except PyError (List α)
  | [] => .ok []
  | x :: xs => do
    let y ← f x
    let ys ← mapExcept f xs
    return y :: ys

/-- Python `x or d` on an `Optional[float]`: `None` and `0.0` are falsy. -/
def pyOrFloat : Option ℚ → ℚ → ℚ
  | none, d => d
  | some x, d => if x = 0 then d else x

/-- Python `x or d` on an `Optional[str]`: `None` and `""` are falsy. -/
def pyOrStr : Option String → String → String
  | none, d => d
  | some s, d => if s = "" then d else s

/-- Python `overrides or None` on an `Optional[Dict]` serialized to JSON:
`None` and the empty dict are falsy, yielding JSON `null`. -/
def pyOrNone : Option (List (String × Json)) → Json
  | none => .null
  | some fs => if fs.isEmpty then .null else .obj fs

/-- JSON serialization of a Python `Optional[float]` (`None` → `null`). -/
def jsonOfOptFloat : Option ℚ → Json
  | none => .null
  | some x => .num x

/-- JSON serialization of a Python `Optional[str]` (`None` → `null`). -/
def jsonOfOptStr : Option String → Json
  | none => .null
  | some s => .str s

/-- The `CaptureScoreResult` dataclass.  Python dataclasses do not check field
types at runtime, so each field holds whatever JSON value was decoded
(`None` becomes `Json.null`). -/
structure CaptureScoreResult where
  event_id : Json
  candidate_id : Json
  status : Json
  recommended : Json
  score : Json
  reasons : Json
  memory_id : Json

/-- The `CaptureScoreResponse` dataclass. -/
structure CaptureScoreResponse where
  threshold : Json
  results : List CaptureScoreResult

/-- The `CaptureCandidate` dataclass. -/
structure CaptureCandidate where
  id : Json
  role : Json
  content : Json
  status : Json
  score : Json
  threshold : Json
  recommended : Json
  category : Json
  reasons : Json
  metadata : Json
  memory_id : Json
  auto_accepted : Json
  auto_decision_reason : Json
  created_at : Json
  updated_at : Json

/-- The configuration a `CapsuleMemoryClient` holds after `__init__`
(`base_url` is stored with trailing slashes already stripped). -/
structure ClientConfig where
  base_url : String
  api_key : String
  org_id : String
  project_id : String
  default_subject_id : String

/-- Python `s.rstrip('/')`. -/
def rstripSlash (s : String) : String :=
  String.mk ((s.data.reverse.dropWhile (fun c => c = '/')).reverse)

/-- The constructor `CapsuleMemoryClient.__init__`: strips trailing slashes off the base URL
and records the credentials. -/
def mkClient (base_url api_key org_id project_id default_subject_id : String) :
    ClientConfig :=
  ⟨rstripSlash base_url, api_key, org_id, project_id, default_subject_id⟩

/-- Python `path.startswith('/')`: whether the first character is `/`. -/
def startsWithSlash (path : String) : Bool :=
  match path.data with
  | [] => false
  | c :: _ => c = '/'

/-- The HTTP request handed to `self._session.request` (method, full URL,
headers, optional JSON body, optional query parameters). -/
structure HttpRequest where
  method : String
  url : String
  headers : List (String × String)
  body : Option Json
  params : Option Json

/-- The server's HTTP response: status code, raw body text, and the parsed
JSON body (`response.json()`). -/
structure HttpResponse where
  status_code : Nat
  text : String
  json : Json

namespace CapsuleMemoryClient

/-- The method `CapsuleMemoryClient._headers`: the exact header dict sent with every
request.  The subject header is `subject_id or self._subject`. -/
def _headers (cfg : ClientConfig) (subject_id : Option String) :
    List (String × String) :=
  [("Content-Type", "application/json"),
   ("X-Capsule-Key", cfg.api_key),
   ("X-Capsule-Org", cfg.org_id),
   ("X-Capsule-Project", cfg.project_id),
   ("X-Capsule-Subject", pyOrStr subject_id cfg.default_subject_id)]

/-- The response-processing half of `CapsuleMemoryClient._request`: raise
`RuntimeError` on status ≥ 400, otherwise unwrap a `data` envelope when the
payload is a dict containing that key. -/
def handleResponse (resp : HttpResponse) : Except PyError Json :=
  if resp.status_code ≥ 400 then
    .error (.requestFailed resp.status_code resp.text)
  else
    .ok (match resp.json with
      | .obj fs =>
        match lookupField fs "data" with
        | some v => v
        | none => .obj fs
      | j => j)

/-- The method `CapsuleMemoryClient._request`: builds the URL (prepending `/` to the
path when missing) and the request, and processes the given response. -/
def _request (cfg : ClientConfig) (method path : String) (json : Option Json)
    (params : Option Json) (subject_id : Option String) (resp : HttpResponse) :
    HttpRequest × Except PyError Json :=
  let url := cfg.base_url ++ (if startsWithSlash path then path else "/" ++ path)
  (⟨method, url, _headers cfg subject_id, json, params⟩, handleResponse resp)

/-- The method `store_memory(content=…, pinned=…, **kwargs)`.  Here `kwargs` is the extra
keyword mapping; Python keyword binding guarantees it never contains the
keys `content` or `pinned` (those bind to the named parameters). -/
def store_memory (cfg : ClientConfig) (content : String) (pinned : Bool)
    (kwargs : List (String × Json)) (resp : HttpResponse) :
    HttpRequest × Except PyError Json :=
  let body := Json.obj (pyDict
    ([("content", Json.str content), ("pinned", Json.bool pinned)] ++ kwargs))
  _request cfg "POST" "/v1/memories" (some body) none none resp

/-- The method `list_memories(limit=…, subject_id=…, **filters)`. -/
def list_memories (cfg : ClientConfig) (limit : Int)
    (subject_id : Option String) (filters : List (String × Json))
    (resp : HttpResponse) : HttpRequest × Except PyError Json :=
  let params := Json.obj (pyDict (("limit", Json.num (limit : ℚ)) :: filters))
  _request cfg "GET" "/v1/memories" none (some params) subject_id resp

/-- The method `search(query=…, subject_id=…, **options)`. -/
def search (cfg : ClientConfig) (query : String) (subject_id : Option String)
    (options : List (String × Json)) (resp : HttpResponse) :
    HttpRequest × Except PyError Json :=
  let body := Json.obj (pyDict (("query", Json.str query) :: options))
  _request cfg "POST" "/v1/memories/search" (some body) none subject_id resp

/-- Decoding one element of `payload.get("results", [])` into a
`CaptureScoreResult`, in the source's field-evaluation order. -/
def decodeScoreResult (result : Json) : Except PyError CaptureScoreResult := do
  let event_id ← result.pyGet "eventId"
  let candidate_id ← result.pyGet "candidateId"
  let status ← result.pyItem "status"
  let recommended ← result.pyItem "recommended"
  let score ← result.pyItem "score"
  let reasons ← result.pyGetD "reasons" (Json.arr [])
  let memory_id ← result.pyGet "memoryId"
  return ⟨event_id, candidate_id, status, recommended, score, reasons, memory_id⟩

/-- The decoding half of `score_capture`: the results comprehension runs
first, then `payload.get("threshold", threshold or 0.6)`. -/
def score_capture_decode (threshold : Option ℚ) (payload : Json) :
    Except PyError CaptureScoreResponse := do
  let rsj ← payload.pyGetD "results" (Json.arr [])
  let rs ← rsj.asIter
  let results ← mapExcept decodeScoreResult rs
  let th ← payload.pyGetD "threshold" (Json.num (pyOrFloat threshold 0.6))
  return ⟨th, results⟩

/-- The method `score_capture(events=…, threshold=…, subject_id=…)`. -/
def score_capture (cfg : ClientConfig) (events : List Json)
    (threshold : Option ℚ) (subject_id : Option String) (resp : HttpResponse) :
    HttpRequest × Except PyError CaptureScoreResponse :=
  let body := Json.obj
    [("events", Json.arr events), ("threshold", jsonOfOptFloat threshold)]
  let r := _request cfg "POST" "/v1/memories/capture" (some body) none
    subject_id resp
  (r.1, do
    let payload ← r.2
    score_capture_decode threshold payload)

/-- Decoding one element of `payload.get("items", [])` into a
`CaptureCandidate`, in the source's field-evaluation order. -/
def decodeCandidate (item : Json) : Except PyError CaptureCandidate := do
  let id ← item.pyItem "id"
  let role ← item.pyItem "role"
  let content ← item.pyItem "content"
  let status ← item.pyItem "status"
  let score ← item.pyItem "score"
  let threshold ← item.pyItem "threshold"
  let recommended ← item.pyItem "recommended"
  let category ← item.pyGetD "category" (Json.str "")
  let reasons ← item.pyGetD "reasons" (Json.arr [])
  let metadata ← item.pyGetD "metadata" (Json.obj [])
  let memory_id ← item.pyGet "memoryId"
  let auto_accepted ← item.pyGetD "autoAccepted" (Json.bool false)
  let auto_decision_reason ← item.pyGet "autoDecisionReason"
  let created_at ← item.pyGetD "createdAt" (Json.str "")
  let updated_at ← item.pyGetD "updatedAt" (Json.str "")
  return ⟨id, role, content, status, score, threshold, recommended, category,
    reasons, metadata, memory_id, auto_accepted, auto_decision_reason,
    created_at, updated_at⟩

/-- The decoding half of `list_capture_candidates`. -/
def list_capture_candidates_decode (payload : Json) :
    Except PyError (List CaptureCandidate) := do
  let itemsj ← payload.pyGetD "items" (Json.arr [])
  let items ← itemsj.asIter
  mapExcept decodeCandidate items

/-- The method `list_capture_candidates(status=…, limit=…, subject_id=…)`. -/
def list_capture_candidates (cfg : ClientConfig) (status : String)
    (limit : Int) (subject_id : Option String) (resp : HttpResponse) :
    HttpRequest × Except PyError (List CaptureCandidate) :=
  let params := Json.obj
    [("status", Json.str status), ("limit", Json.num (limit : ℚ))]
  let r := _request cfg "GET" "/v1/memories/capture" none (some params)
    subject_id resp
  (r.1, do
    let payload ← r.2
    list_capture_candidates_decode payload)

/-- The method `approve_capture_candidate(candidate_id, overrides=…, subject_id=…)`:
body `{"memory": overrides or None}`. -/
def approve_capture_candidate (cfg : ClientConfig) (candidate_id : String)
    (overrides : Option (List (String × Json))) (subject_id : Option String)
    (resp : HttpResponse) : HttpRequest × Except PyError Json :=
  _request cfg "POST" ("/v1/memories/capture/" ++ candidate_id ++ "/approve")
    (some (Json.obj [("memory", pyOrNone overrides)])) none subject_id resp

/-- The method `reject_capture_candidate(candidate_id, reason=…, subject_id=…)`:
body `{"reason": reason}`. -/
def reject_capture_candidate (cfg : ClientConfig) (candidate_id : String)
    (reason : Option String) (subject_id : Option String)
    (resp : HttpResponse) : HttpRequest × Except PyError Json :=
  _request cfg "POST" ("/v1/memories/capture/" ++ candidate_id ++ "/reject")
    (some (Json.obj [("reason", jsonOfOptStr reason)])) none subject_id resp

end CapsuleMemoryClient

/-! ### Generic lemmas about the `Except`-based Python semantics -/

/-- Inversion for a successful monadic bind in `Except`. -/
theorem bind_ok_iff {α β : Type} (step : Except PyError α)
    (rest : α → Except PyError β) (out : β) :
    step >>= rest = .ok out ↔ ∃ mid, step = .ok mid ∧ rest mid = .ok out := by
  cases step with
  | error err => simp [bind, Except.bind]
  | ok mid => simp [bind, Except.bind]

/-- Inversion for a failing monadic bind in `Except`. -/
theorem bind_error_iff {α β : Type} (step : Except PyError α)
    (rest : α → Except PyError β) (err : PyError) :
    step >>= rest = .error err ↔
      step = .error err ∨ ∃ mid, step = .ok mid ∧ rest mid = .error err := by
  cases step with
  | error e0 => simp [bind, Except.bind]
  | ok mid => simp [bind, Except.bind]

/-- Whether an error is the HTTP-failure `RuntimeError`. -/
def PyError.isRequestFailed : PyError → Bool
  | .requestFailed _ _ => true
  | _ => false

theorem pyGetD_error_shape (j : Json) (k : String) (d : Json) (e : PyError)
    (h : j.pyGetD k d = .error e) : e.isRequestFailed = false := by
  cases j <;> simp [Json.pyGetD] at h <;> subst h <;> rfl

theorem pyGet_error_shape (j : Json) (k : String) (e : PyError)
    (h : j.pyGet k = .error e) : e.isRequestFailed = false :=
  pyGetD_error_shape j k .null e h

theorem pyItem_error_shape (j : Json) (k : String) (e : PyError)
    (h : j.pyItem k = .error e) : e.isRequestFailed = false := by
  cases j with
  | obj fs =>
    cases hl : lookupField fs k with
    | some v => simp [Json.pyItem, hl] at h
    | none => simp [Json.pyItem, hl] at h; subst h; rfl
  | null => simp [Json.pyItem] at h; subst h; rfl
  | bool b => simp [Json.pyItem] at h; subst h; rfl
  | num q => simp [Json.pyItem] at h; subst h; rfl
  | str s => simp [Json.pyItem] at h; subst h; rfl
  | arr xs => simp [Json.pyItem] at h; subst h; rfl

theorem asIter_error_shape (j : Json) (e : PyError)
    (h : j.asIter = .error e) : e.isRequestFailed = false := by
  cases j <;> simp [Json.asIter] at h <;> subst h <;> rfl

theorem mapExcept_error_shape {α : Type} (f : Json → Except PyError α)
    (hf : ∀ x e, f x = .error e → e.isRequestFailed = false) :
    ∀ (xs : List Json) (e : PyError), mapExcept f xs = .error e →
      e.isRequestFailed = false := by
  intro xs
  induction xs with
  | nil => intro e h; simp [mapExcept] at h
  | cons x xs ih =>
    intro e h
    unfold mapExcept at h
    rw [bind_error_iff] at h
    rcases h with h | ⟨a, _, h⟩
    · exact hf x e h
    rw [bind_error_iff] at h
    rcases h with h | ⟨as, _, h⟩
    · exact ih e h
    · simp [pure, Except.pure] at h

/-- All `xs` decode when `mapExcept f xs` succeeds. -/
theorem mapExcept_ok_mem {α : Type} (f : Json → Except PyError α) :
    ∀ (xs : List Json) (ys : List α), mapExcept f xs = .ok ys →
      ∀ x ∈ xs, ∃ y, f x = .ok y := by
  intro xs
  induction xs with
  | nil => intro ys _ x hx; simp at hx
  | cons x xs ih =>
    intro ys h z hz
    unfold mapExcept at h
    rw [bind_ok_iff] at h
    obtain ⟨a, ha, h⟩ := h
    rw [bind_ok_iff] at h
    obtain ⟨as, has, _⟩ := h
    rcases List.mem_cons.mp hz with hz | hz
    · exact ⟨a, hz ▸ ha⟩
    · exact ih as has z hz

/-- If every element decodes to a value satisfying `P`, the comprehension
succeeds, preserves length and order, and every output satisfies `P`. -/
theorem mapExcept_ok_of_forall {α : Type} (P : α → Prop)
    (f : Json → Except PyError α) :
    ∀ xs : List Json, (∀ x ∈ xs, ∃ y, f x = .ok y ∧ P y) →
      ∃ ys, mapExcept f xs = .ok ys ∧ ys.length = xs.length ∧
        (∀ (i : ℕ) (h : i < xs.length) (h' : i < ys.length),
          f (xs.get ⟨i, h⟩) = .ok (ys.get ⟨i, h'⟩)) ∧
        ∀ y ∈ ys, P y := by
  intro xs
  induction xs with
  | nil =>
    intro _
    exact ⟨[], rfl, rfl, fun i h _ => absurd h (Nat.not_lt_zero i), fun y hy => absurd hy (List.not_mem_nil y)⟩
  | cons x xs ih =>
    intro hall
    obtain ⟨y, hy, hP⟩ := hall x (List.mem_cons_self x xs)
    obtain ⟨ys, hys, hlen, hpt, hPs⟩ := ih (fun z hz => hall z (List.mem_cons_of_mem x hz))
    refine ⟨y :: ys, ?_, by simp [hlen], ?_, ?_⟩
    · unfold mapExcept
      rw [bind_ok_iff]
      exact ⟨y, hy, by rw [bind_ok_iff]; exact ⟨ys, hys, rfl⟩⟩
    · intro i h h'
      cases i with
      | zero => simpa using hy
      | succ n =>
        simpa using hpt n (Nat.lt_of_succ_lt_succ h) (Nat.lt_of_succ_lt_succ h')
    · intro z hz
      rcases List.mem_cons.mp hz with hz | hz
      · exact hz ▸ hP
      · exact hPs z hz

/-- Inserting a different key does not change a lookup. -/
theorem lookupField_dictInsert_ne (d : List (String × Json)) (k' : String)
    (v' : Json) (k : String) (h : k' ≠ k) :
    lookupField (dictInsert d k' v') k = lookupField d k := by
  induction d with
  | nil => simp [dictInsert, lookupField, h]
  | cons p rest ih =>
    obtain ⟨pk, pv⟩ := p
    by_cases hp : pk = k'
    · subst hp
      simp [dictInsert, lookupField, h]
    · simp only [dictInsert, if_neg hp]
      by_cases hpk : pk = k
      · simp [lookupField, hpk]
      · simp [lookupField, hpk, ih]

/-- Folding inserts whose keys all differ from `k` leaves the lookup of `k`
unchanged. -/
theorem lookupField_foldl_insert (ps : List (String × Json)) (k : String)
    (h : ∀ p ∈ ps, p.1 ≠ k) :
    ∀ d, lookupField (ps.foldl (fun d p => dictInsert d p.1 p.2) d) k =
      lookupField d k := by
  induction ps with
  | nil => intro d; rfl
  | cons p rest ih =>
    intro d
    rw [List.foldl_cons,
      ih (fun q hq => h q (List.mem_cons_of_mem p hq)) (dictInsert d p.1 p.2)]
    exact lookupField_dictInsert_ne d p.1 p.2 k (h p (List.mem_cons_self p rest))

namespace CapsuleMemoryClient

theorem handleResponse_ge400 (resp : HttpResponse) (h : 400 ≤ resp.status_code) :
    handleResponse resp = .error (.requestFailed resp.status_code resp.text) := by
  unfold handleResponse
  rw [if_pos h]

theorem handleResponse_lt400 (resp : HttpResponse) (h : resp.status_code < 400) :
    ∃ p, handleResponse resp = .ok p := by
  unfold handleResponse
  rw [if_neg (by omega)]
  exact ⟨_, rfl⟩

theorem decodeScoreResult_error_shape (j : Json) (e : PyError)
    (h : decodeScoreResult j = .error e) : e.isRequestFailed = false := by
  unfold decodeScoreResult at h
  rw [bind_error_iff] at h
  rcases h with h | ⟨a1, _, h⟩
  · exact pyGet_error_shape _ _ _ h
  rw [bind_error_iff] at h
  rcases h with h | ⟨a2, _, h⟩
  · exact pyGet_error_shape _ _ _ h
  rw [bind_error_iff] at h
  rcases h with h | ⟨a3, _, h⟩
  · exact pyItem_error_shape _ _ _ h
  rw [bind_error_iff] at h
  rcases h with h | ⟨a4, _, h⟩
  · exact pyItem_error_shape _ _ _ h
  rw [bind_error_iff] at h
  rcases h with h | ⟨a5, _, h⟩
  · exact pyItem_error_shape _ _ _ h
  rw [bind_error_iff] at h
  rcases h with h | ⟨a6, _, h⟩
  · exact pyGetD_error_shape _ _ _ _ h
  rw [bind_error_iff] at h
  rcases h with h | ⟨a7, _, h⟩
  · exact pyGet_error_shape _ _ _ h
  · simp [pure, Except.pure] at h

theorem score_capture_decode_error_shape (th : Option ℚ) (p : Json) (e : PyError)
    (h : score_capture_decode th p = .error e) : e.isRequestFailed = false := by
  unfold score_capture_decode at h
  rw [bind_error_iff] at h
  rcases h with h | ⟨a1, _, h⟩
  · exact pyGetD_error_shape _ _ _ _ h
  rw [bind_error_iff] at h
  rcases h with h | ⟨a2, _, h⟩
  · exact asIter_error_shape _ _ h
  rw [bind_error_iff] at h
  rcases h with h | ⟨a3, _, h⟩
  · exact mapExcept_error_shape decodeScoreResult decodeScoreResult_error_shape a2 e h
  rw [bind_error_iff] at h
  rcases h with h | ⟨a4, _, h⟩
  · exact pyGetD_error_shape _ _ _ _ h
  · simp [pure, Except.pure] at h

theorem decodeCandidate_error_shape (j : Json) (e : PyError)
    (h : decodeCandidate j = .error e) : e.isRequestFailed = false := by
  unfold decodeCandidate at h
  rw [bind_error_iff] at h
  rcases h with h | ⟨a1, _, h⟩
  · exact pyItem_error_shape _ _ _ h
  rw [bind_error_iff] at h
  rcases h with h | ⟨a2, _, h⟩
  · exact pyItem_error_shape _ _ _ h
  rw [bind_error_iff] at h
  rcases h with h | ⟨a3, _, h⟩
  · exact pyItem_error_shape _ _ _ h
  rw [bind_error_iff] at h
  rcases h with h | ⟨a4, _, h⟩
  · exact pyItem_error_shape _ _ _ h
  rw [bind_error_iff] at h
  rcases h with h | ⟨a5, _, h⟩
  · exact pyItem_error_shape _ _ _ h
  rw [bind_error_iff] at h
  rcases h with h | ⟨a6, _, h⟩
  · exact pyItem_error_shape _ _ _ h
  rw [bind_error_iff] at h
  rcases h with h | ⟨a7, _, h⟩
  · exact pyItem_error_shape _ _ _ h
  rw [bind_error_iff] at h
  rcases h with h | ⟨a8, _, h⟩
  · exact pyGetD_error_shape _ _ _ _ h
  rw [bind_error_iff] at h
  rcases h with h | ⟨a9, _, h⟩
  · exact pyGetD_error_shape _ _ _ _ h
  rw [bind_error_iff] at h
  rcases h with h | ⟨a10, _, h⟩
  · exact pyGetD_error_shape _ _ _ _ h
  rw [bind_error_iff] at h
  rcases h with h | ⟨a11, _, h⟩
  · exact pyGet_error_shape _ _ _ h
  rw [bind_error_iff] at h
  rcases h with h | ⟨a12, _, h⟩
  · exact pyGetD_error_shape _ _ _ _ h
  rw [bind_error_iff] at h
  rcases h with h | ⟨a13, _, h⟩
  · exact pyGet_error_shape _ _ _ h
  rw [bind_error_iff] at h
  rcases h with h | ⟨a14, _, h⟩
  · exact pyGetD_error_shape _ _ _ _ h
  rw [bind_error_iff] at h
  rcases h with h | ⟨a15, _, h⟩
  · exact pyGetD_error_shape _ _ _ _ h
  · simp [pure, Except.pure] at h

theorem list_capture_candidates_decode_error_shape (p : Json) (e : PyError)
    (h : list_capture_candidates_decode p = .error e) : e.isRequestFailed = false := by
  unfold list_capture_candidates_decode at h
  rw [bind_error_iff] at h
  rcases h with h | ⟨a1, _, h⟩
  · exact pyGetD_error_shape _ _ _ _ h
  rw [bind_error_iff] at h
  rcases h with h | ⟨a2, _, h⟩
  · exact asIter_error_shape _ _ h
  · exact mapExcept_error_shape decodeCandidate decodeCandidate_error_shape a2 e h

/-- A candidate object with all required fields present and `reasons`,
`metadata`, `autoAccepted` absent decodes successfully, with those three
fields defaulted. -/
theorem decodeCandidate_defaults (ifs : List (String × Json))
    (hid : ∃ v, lookupField ifs "id" = some v)
    (hrole : ∃ v, lookupField ifs "role" = some v)
    (hcontent : ∃ v, lookupField ifs "content" = some v)
    (hstatus : ∃ v, lookupField ifs "status" = some v)
    (hscore : ∃ v, lookupField ifs "score" = some v)
    (hthr : ∃ v, lookupField ifs "threshold" = some v)
    (hrec : ∃ v, lookupField ifs "recommended" = some v)
    (hreasons : lookupField ifs "reasons" = none)
    (hmeta : lookupField ifs "metadata" = none)
    (hauto : lookupField ifs "autoAccepted" = none) :
    ∃ c, decodeCandidate (Json.obj ifs) = .ok c ∧
      c.reasons = Json.arr [] ∧ c.metadata = Json.obj [] ∧
      c.auto_accepted = Json.bool false := by
  obtain ⟨vid, hid⟩ := hid
  obtain ⟨vrole, hrole⟩ := hrole
  obtain ⟨vcontent, hcontent⟩ := hcontent
  obtain ⟨vstatus, hstatus⟩ := hstatus
  obtain ⟨vscore, hscore⟩ := hscore
  obtain ⟨vthr, hthr⟩ := hthr
  obtain ⟨vrec, hrec⟩ := hrec
  refine ⟨⟨vid, vrole, vcontent, vstatus, vscore, vthr, vrec,
    (lookupField ifs "category").getD (Json.str ""), Json.arr [], Json.obj [],
    (lookupField ifs "memoryId").getD Json.null, Json.bool false,
    (lookupField ifs "autoDecisionReason").getD Json.null,
    (lookupField ifs "createdAt").getD (Json.str ""),
    (lookupField ifs "updatedAt").getD (Json.str "")⟩, ?_, rfl, rfl, rfl⟩
  simp [decodeCandidate, Json.pyItem, Json.pyGet, Json.pyGetD, hid, hrole,
    hcontent, hstatus, hscore, hthr, hrec, hreasons, hmeta, hauto,
    bind, Except.bind, pure, Except.pure]

/-- A score-result object missing one of its required fields fails to decode
with a `KeyError` on a required field. -/
theorem decodeScoreResult_missing (fs : List (String × Json))
    (h : lookupField fs "status" = none ∨ lookupField fs "recommended" = none ∨
      lookupField fs "score" = none) :
    ∃ k, lookupField fs k = none ∧
      decodeScoreResult (Json.obj fs) = .error (.keyError k) := by
  cases hs : lookupField fs "status" with
  | none =>
    exact ⟨"status", hs, by
      simp [decodeScoreResult, Json.pyGet, Json.pyGetD, Json.pyItem, hs,
        bind, Except.bind]⟩
  | some vs =>
    cases hrec : lookupField fs "recommended" with
    | none =>
      exact ⟨"recommended", hrec, by
        simp [decodeScoreResult, Json.pyGet, Json.pyGetD, Json.pyItem, hs, hrec,
          bind, Except.bind]⟩
    | some vr =>
      cases hsc : lookupField fs "score" with
      | none =>
        exact ⟨"score", hsc, by
          simp [decodeScoreResult, Json.pyGet, Json.pyGetD, Json.pyItem, hs,
            hrec, hsc, bind, Except.bind]⟩
      | some vv => rcases h with h | h | h <;> simp_all

/-- A candidate object missing one of its required fields fails to decode
with a `KeyError` on a required field. -/
theorem decodeCandidate_missing (fs : List (String × Json))
    (h : lookupField fs "id" = none ∨ lookupField fs "role" = none ∨
      lookupField fs "content" = none ∨ lookupField fs "status" = none ∨
      lookupField fs "score" = none ∨ lookupField fs "threshold" = none ∨
      lookupField fs "recommended" = none) :
    ∃ k, lookupField fs k = none ∧
      decodeCandidate (Json.obj fs) = .error (.keyError k) := by
  cases hfOne : lookupField fs "id" with
  | none =>
    exact ⟨"id", hfOne, by
      simp [decodeCandidate, Json.pyGet, Json.pyGetD, Json.pyItem, hfOne,
        bind, Except.bind]⟩
  | some v1 =>
  cases hfTwo : lookupField fs "role" with
  | none =>
    exact ⟨"role", hfTwo, by
      simp [decodeCandidate, Json.pyGet, Json.pyGetD, Json.pyItem, hfOne, hfTwo,
        bind, Except.bind]⟩
  | some v2 =>
  cases hfThree : lookupField fs "content" with
  | none =>
    exact ⟨"content", hfThree, by
      simp [decodeCandidate, Json.pyGet, Json.pyGetD, Json.pyItem, hfOne, hfTwo, hfThree,
        bind, Except.bind]⟩
  | some v3 =>
  cases hfFour : lookupField fs "status" with
  | none =>
    exact ⟨"status", hfFour, by
      simp [decodeCandidate, Json.pyGet, Json.pyGetD, Json.pyItem, hfOne, hfTwo, hfThree,
        hfFour, bind, Except.bind]⟩
  | some v4 =>
  cases hfFive : lookupField fs "score" with
  | none =>
    exact ⟨"score", hfFive, by
      simp [decodeCandidate, Json.pyGet, Json.pyGetD, Json.pyItem, hfOne, hfTwo, hfThree,
        hfFour, hfFive, bind, Except.bind]⟩
  | some v5 =>
  cases hfSix : lookupField fs "threshold" with
  | none =>
    exact ⟨"threshold", hfSix, by
      simp [decodeCandidate, Json.pyGet, Json.pyGetD, Json.pyItem, hfOne, hfTwo, hfThree,
        hfFour, hfFive, hfSix, bind, Except.bind]⟩
  | some v6 =>
  cases hfSeven : lookupField fs "recommended" with
  | none =>
    exact ⟨"recommended", hfSeven, by
      simp [decodeCandidate, Json.pyGet, Json.pyGetD, Json.pyItem, hfOne, hfTwo, hfThree,
        hfFour, hfFive, hfSix, hfSeven, bind, Except.bind]⟩
  | some v7 => rcases h with h | h | h | h | h | h | h <;> simp_all

end CapsuleMemoryClient

/-! ### The claims -/

/-- C2 (counterexample): passing the empty string as the per-call subject
override does not put the empty string in the subject header — the
constructor default is sent instead, because `subject_id or self._subject`
treats `""` as falsy. -/
theorem headers_empty_override_counterexample :
    CapsuleMemoryClient._headers
        (mkClient "http://h" "k" "o" "p" "subj-default") (some "") =
      [("Content-Type", "application/json"),
       ("X-Capsule-Key", "k"),
       ("X-Capsule-Org", "o"),
       ("X-Capsule-Project", "p"),
       ("X-Capsule-Subject", "subj-default")] ∧
    "subj-default" ≠ "" :=
  ⟨rfl, by decide⟩

/-- C2 (amended): every request carries exactly `Content-Type:
application/json` plus the four custom headers with the constructor-supplied
API key, org id and project id; the subject header equals the per-call
override whenever a NON-EMPTY one is given, and the constructor default when
the override is absent or the empty string.  Each public method builds its
headers this way (with its subject argument, or none for `store_memory` and
`list_memories`' default). -/
theorem headers_contract (cfg : ClientConfig) (sid : Option String) :
    CapsuleMemoryClient._headers cfg sid =
      [("Content-Type", "application/json"),
       ("X-Capsule-Key", cfg.api_key),
       ("X-Capsule-Org", cfg.org_id),
       ("X-Capsule-Project", cfg.project_id),
       ("X-Capsule-Subject",
         match sid with
         | none => cfg.default_subject_id
         | some s => if s = "" then cfg.default_subject_id else s)] ∧
    (∀ content pinned kwargs resp,
      (CapsuleMemoryClient.store_memory cfg content pinned kwargs resp).1.headers =
        CapsuleMemoryClient._headers cfg none) ∧
    (∀ limit filters resp,
      (CapsuleMemoryClient.list_memories cfg limit sid filters resp).1.headers =
        CapsuleMemoryClient._headers cfg sid) ∧
    (∀ query options resp,
      (CapsuleMemoryClient.search cfg query sid options resp).1.headers =
        CapsuleMemoryClient._headers cfg sid) ∧
    (∀ events th resp,
      (CapsuleMemoryClient.score_capture cfg events th sid resp).1.headers =
        CapsuleMemoryClient._headers cfg sid) ∧
    (∀ status limit resp,
      (CapsuleMemoryClient.list_capture_candidates cfg status limit sid resp).1.headers =
        CapsuleMemoryClient._headers cfg sid) ∧
    (∀ cid overrides resp,
      (CapsuleMemoryClient.approve_capture_candidate cfg cid overrides sid resp).1.headers =
        CapsuleMemoryClient._headers cfg sid) ∧
    (∀ cid reason resp,
      (CapsuleMemoryClient.reject_capture_candidate cfg cid reason sid resp).1.headers =
        CapsuleMemoryClient._headers cfg sid) := by
  have hsub : CapsuleMemoryClient._headers cfg sid =
      [("Content-Type", "application/json"),
       ("X-Capsule-Key", cfg.api_key),
       ("X-Capsule-Org", cfg.org_id),
       ("X-Capsule-Project", cfg.project_id),
       ("X-Capsule-Subject",
         match sid with
         | none => cfg.default_subject_id
         | some s => if s = "" then cfg.default_subject_id else s)] := by
    cases sid with
    | none => rfl
    | some s =>
      by_cases h : s = "" <;>
        simp [CapsuleMemoryClient._headers, pyOrStr, h]
  exact ⟨hsub,
    fun content pinned kwargs resp => rfl,
    fun limit filters resp => rfl,
    fun query options resp => rfl,
    fun events th resp => rfl,
    fun cstatus climit resp => rfl,
    fun cid overrides resp => rfl,
    fun cid reason resp => rfl⟩

/-- C4: on a successful status, a mapping payload containing `data` is
unwrapped to exactly the value under `data`; any other payload shape (a
mapping without `data`, or a non-mapping) is returned unchanged. -/
theorem envelope_unwrapping (resp : HttpResponse) (h : resp.status_code < 400) :
    (∀ fs v, resp.json = .obj fs → lookupField fs "data" = some v →
      CapsuleMemoryClient.handleResponse resp = .ok v) ∧
    (∀ fs, resp.json = .obj fs → lookupField fs "data" = none →
      CapsuleMemoryClient.handleResponse resp = .ok resp.json) ∧
    ((∀ fs, resp.json ≠ .obj fs) →
      CapsuleMemoryClient.handleResponse resp = .ok resp.json) := by
  unfold CapsuleMemoryClient.handleResponse
  rw [if_neg (by omega)]
  refine ⟨?_, ?_, ?_⟩
  · intro fs v hj hd
    rw [hj]
    simp [hd]
  · intro fs hj hd
    rw [hj]
    simp [hd]
  · intro hne
    cases hj : resp.json with
    | obj fs => exact absurd hj (hne fs)
    | null => rfl
    | bool b => rfl
    | num q => rfl
    | str s => rfl
    | arr xs => rfl

/-- C4 witness: a 200 response `{"data": null}` unwraps to `null`. -/
theorem envelope_unwrapping_witness :
    CapsuleMemoryClient.handleResponse
        ⟨200, "", Json.obj [("data", Json.null)]⟩ = .ok Json.null :=
  (envelope_unwrapping ⟨200, "", Json.obj [("data", Json.null)]⟩
    (by decide)).1 [("data", Json.null)] Json.null rfl rfl

/-- C3: for an HTTP status in [400, 599], every public method fails with the
`RequestFailed` error carrying exactly that status code and the raw response
body text, never a successful value; for a status below 400 no
`RequestFailed` error is ever produced, by any method. -/
theorem request_failed_contract (cfg : ClientConfig) (resp : HttpResponse) :
    (400 ≤ resp.status_code → resp.status_code ≤ 599 →
      (∀ content pinned kwargs,
        (CapsuleMemoryClient.store_memory cfg content pinned kwargs resp).2 =
          .error (.requestFailed resp.status_code resp.text)) ∧
      (∀ limit sid filters,
        (CapsuleMemoryClient.list_memories cfg limit sid filters resp).2 =
          .error (.requestFailed resp.status_code resp.text)) ∧
      (∀ query sid options,
        (CapsuleMemoryClient.search cfg query sid options resp).2 =
          .error (.requestFailed resp.status_code resp.text)) ∧
      (∀ events th sid,
        (CapsuleMemoryClient.score_capture cfg events th sid resp).2 =
          .error (.requestFailed resp.status_code resp.text)) ∧
      (∀ status limit sid,
        (CapsuleMemoryClient.list_capture_candidates cfg status limit sid resp).2 =
          .error (.requestFailed resp.status_code resp.text)) ∧
      (∀ cid overrides sid,
        (CapsuleMemoryClient.approve_capture_candidate cfg cid overrides sid resp).2 =
          .error (.requestFailed resp.status_code resp.text)) ∧
      (∀ cid reason sid,
        (CapsuleMemoryClient.reject_capture_candidate cfg cid reason sid resp).2 =
          .error (.requestFailed resp.status_code resp.text))) ∧
    (resp.status_code < 400 → ∀ c t,
      (∀ content pinned kwargs,
        (CapsuleMemoryClient.store_memory cfg content pinned kwargs resp).2 ≠
          .error (.requestFailed c t)) ∧
      (∀ limit sid filters,
        (CapsuleMemoryClient.list_memories cfg limit sid filters resp).2 ≠
          .error (.requestFailed c t)) ∧
      (∀ query sid options,
        (CapsuleMemoryClient.search cfg query sid options resp).2 ≠
          .error (.requestFailed c t)) ∧
      (∀ events th sid,
        (CapsuleMemoryClient.score_capture cfg events th sid resp).2 ≠
          .error (.requestFailed c t)) ∧
      (∀ status limit sid,
        (CapsuleMemoryClient.list_capture_candidates cfg status limit sid resp).2 ≠
          .error (.requestFailed c t)) ∧
      (∀ cid overrides sid,
        (CapsuleMemoryClient.approve_capture_candidate cfg cid overrides sid resp).2 ≠
          .error (.requestFailed c t)) ∧
      (∀ cid reason sid,
        (CapsuleMemoryClient.reject_capture_candidate cfg cid reason sid resp).2 ≠
          .error (.requestFailed c t))) := by
  constructor
  · intro h400 _
    have he := CapsuleMemoryClient.handleResponse_ge400 resp h400
    have hsc : ∀ events th sid,
        (CapsuleMemoryClient.score_capture cfg events th sid resp).2 =
          .error (.requestFailed resp.status_code resp.text) := by
      intro events th sid
      have hb : (CapsuleMemoryClient.score_capture cfg events th sid resp).2 =
          CapsuleMemoryClient.handleResponse resp >>= fun p =>
            CapsuleMemoryClient.score_capture_decode th p := rfl
      rw [hb, he]
      rfl
    have hlc : ∀ status limit sid,
        (CapsuleMemoryClient.list_capture_candidates cfg status limit sid resp).2 =
          .error (.requestFailed resp.status_code resp.text) := by
      intro status limit sid
      have hb : (CapsuleMemoryClient.list_capture_candidates cfg status limit sid resp).2 =
          CapsuleMemoryClient.handleResponse resp >>= fun p =>
            CapsuleMemoryClient.list_capture_candidates_decode p := rfl
      rw [hb, he]
      rfl
    exact ⟨fun _ _ _ => he, fun _ _ _ => he, fun _ _ _ => he, hsc, hlc,
      fun _ _ _ => he, fun _ _ _ => he⟩
  · intro hlt c t
    obtain ⟨p, hp⟩ := CapsuleMemoryClient.handleResponse_lt400 resp hlt
    have hne : CapsuleMemoryClient.handleResponse resp ≠
        .error (.requestFailed c t) := by
      rw [hp]
      intro hc
      exact Except.noConfusion hc
    have hsc : ∀ events th sid,
        (CapsuleMemoryClient.score_capture cfg events th sid resp).2 ≠
          .error (.requestFailed c t) := by
      intro events th sid hc
      have hb : (CapsuleMemoryClient.score_capture cfg events th sid resp).2 =
          CapsuleMemoryClient.handleResponse resp >>= fun q =>
            CapsuleMemoryClient.score_capture_decode th q := rfl
      rw [hb, hp] at hc
      have hd : CapsuleMemoryClient.score_capture_decode th p =
          .error (.requestFailed c t) := hc
      have := CapsuleMemoryClient.score_capture_decode_error_shape th p _ hd
      simp [PyError.isRequestFailed] at this
    have hlc : ∀ status limit sid,
        (CapsuleMemoryClient.list_capture_candidates cfg status limit sid resp).2 ≠
          .error (.requestFailed c t) := by
      intro status limit sid hc
      have hb : (CapsuleMemoryClient.list_capture_candidates cfg status limit sid resp).2 =
          CapsuleMemoryClient.handleResponse resp >>= fun q =>
            CapsuleMemoryClient.list_capture_candidates_decode q := rfl
      rw [hb, hp] at hc
      have hd : CapsuleMemoryClient.list_capture_candidates_decode p =
          .error (.requestFailed c t) := hc
      have := CapsuleMemoryClient.list_capture_candidates_decode_error_shape p _ hd
      simp [PyError.isRequestFailed] at this
    exact ⟨fun _ _ _ => hne, fun _ _ _ => hne, fun _ _ _ => hne, hsc, hlc,
      fun _ _ _ => hne, fun _ _ _ => hne⟩

/-- C3 witness: a 404 response with body `"missing"` makes `store_memory`
fail with `RequestFailed 404 "missing"`, and a 200 response never yields a
`RequestFailed` from `score_capture`. -/
theorem request_failed_contract_witness :
    (CapsuleMemoryClient.store_memory
        (mkClient "http://h" "k" "o" "p" "s") "c" false [] ⟨404, "missing", Json.null⟩).2 =
      .error (.requestFailed 404 "missing") ∧
    (CapsuleMemoryClient.score_capture
        (mkClient "http://h" "k" "o" "p" "s") [] none none ⟨200, "", Json.obj []⟩).2 ≠
      .error (.requestFailed 500 "oops") :=
  ⟨((request_failed_contract (mkClient "http://h" "k" "o" "p" "s")
      ⟨404, "missing", Json.null⟩).1 (by decide) (by decide)).1 "c" false [],
   (((request_failed_contract (mkClient "http://h" "k" "o" "p" "s")
      ⟨200, "", Json.obj []⟩).2 (by decide) 500 "oops").2.2.2.1 [] none none)⟩

/-- C1 (counterexample): with an explicitly passed `threshold = 0.0` and a
server payload lacking a `threshold` key, `score_capture` returns threshold
0.6 rather than the caller's 0.0 — `threshold or 0.6` treats `0.0` as falsy. -/
theorem score_capture_zero_threshold_counterexample :
    (CapsuleMemoryClient.score_capture (mkClient "http://h" "k" "o" "p" "s")
        [] (some 0) none ⟨200, "", Json.obj [("results", Json.arr [])]⟩).2 =
      .ok ⟨Json.num 0.6, []⟩ ∧ (0.6 : ℚ) ≠ 0 :=
  ⟨rfl, by norm_num⟩

/-- C1 (amended): when the server payload has no `threshold` key, the
returned threshold is 0.6 if the caller passed no threshold argument or
passed `0.0`, and the caller's threshold for every nonzero value. -/
theorem score_capture_threshold_default (cfg : ClientConfig)
    (events : List Json) (th : Option ℚ) (sid : Option String)
    (resp : HttpResponse) (fs : List (String × Json)) (r : CaptureScoreResponse)
    (hpayload : CapsuleMemoryClient.handleResponse resp = .ok (Json.obj fs))
    (hth : lookupField fs "threshold" = none)
    (hr : (CapsuleMemoryClient.score_capture cfg events th sid resp).2 = .ok r) :
    r.threshold =
      Json.num (th.elim (0.6 : ℚ) (fun t => if t = 0 then (0.6 : ℚ) else t)) := by
  have hb : (CapsuleMemoryClient.score_capture cfg events th sid resp).2 =
      CapsuleMemoryClient.handleResponse resp >>= fun p =>
        CapsuleMemoryClient.score_capture_decode th p := rfl
  rw [hb, hpayload] at hr
  have hd : CapsuleMemoryClient.score_capture_decode th (Json.obj fs) = .ok r := hr
  unfold CapsuleMemoryClient.score_capture_decode at hd
  rw [bind_ok_iff] at hd
  obtain ⟨a1, ha1, hd⟩ := hd
  rw [bind_ok_iff] at hd
  obtain ⟨a2, ha2, hd⟩ := hd
  rw [bind_ok_iff] at hd
  obtain ⟨a3, ha3, hd⟩ := hd
  rw [bind_ok_iff] at hd
  obtain ⟨a4, ha4, hd⟩ := hd
  simp [pure, Except.pure] at hd
  simp [Json.pyGetD, hth] at ha4
  rw [← hd, ← ha4]
  cases th with
  | none => rfl
  | some t => rfl

/-- C1 witness: a nonzero explicit threshold (2) is returned unchanged when
the payload has no `threshold` key. -/
theorem score_capture_threshold_default_witness :
    (CapsuleMemoryClient.score_capture (mkClient "http://h" "k" "o" "p" "s")
        [] (some 2) none ⟨200, "", Json.obj []⟩).2 = .ok ⟨Json.num 2, []⟩ ∧
    (⟨Json.num 2, []⟩ : CaptureScoreResponse).threshold =
      Json.num ((some 2 : Option ℚ).elim (0.6 : ℚ)
        (fun t => if t = 0 then (0.6 : ℚ) else t)) :=
  ⟨rfl, score_capture_threshold_default (mkClient "http://h" "k" "o" "p" "s")
    [] (some 2) none ⟨200, "", Json.obj []⟩ [] ⟨Json.num 2, []⟩ rfl rfl rfl⟩

/-- C5: merging the extra keyword mapping into the body leaves the explicit
named fields bound to the passed argument values.  The hypotheses encode
Python keyword binding: a keyword argument named `content`, `pinned` or
`query` binds to the named parameter, so the extra mapping can never
contain those keys and no collision can reach the dict merge. -/
theorem explicit_fields_precedence (cfg : ClientConfig) (content : String)
    (pinned : Bool) (kwargs : List (String × Json)) (query : String)
    (sid : Option String) (options : List (String × Json)) (resp : HttpResponse)
    (hk : ∀ p ∈ kwargs, p.1 ≠ "content" ∧ p.1 ≠ "pinned")
    (ho : ∀ p ∈ options, p.1 ≠ "query") :
    (∃ d, (CapsuleMemoryClient.store_memory cfg content pinned kwargs resp).1.body =
        some (Json.obj d) ∧
      lookupField d "content" = some (Json.str content) ∧
      lookupField d "pinned" = some (Json.bool pinned)) ∧
    (∃ d, (CapsuleMemoryClient.search cfg query sid options resp).1.body =
        some (Json.obj d) ∧
      lookupField d "query" = some (Json.str query)) := by
  constructor
  · refine ⟨pyDict ([("content", Json.str content),
      ("pinned", Json.bool pinned)] ++ kwargs), rfl, ?_, ?_⟩
    · unfold pyDict
      rw [List.foldl_append,
        lookupField_foldl_insert kwargs "content" (fun p hp => (hk p hp).1)]
      rfl
    · unfold pyDict
      rw [List.foldl_append,
        lookupField_foldl_insert kwargs "pinned" (fun p hp => (hk p hp).2)]
      rfl
  · refine ⟨pyDict (("query", Json.str query) :: options), rfl, ?_⟩
    unfold pyDict
    rw [List.foldl_cons, lookupField_foldl_insert options "query" ho]
    rfl

/-- C5 witness: passing `kwargs = {"tags": [], "pinned-like": null}` and
`options = {"limit": 3}` leaves `content`, `pinned` and `query` bound to the
explicit arguments. -/
theorem explicit_fields_precedence_witness :
    (∃ d, (CapsuleMemoryClient.store_memory (mkClient "http://h" "k" "o" "p" "s")
        "c" true [("tags", Json.arr []), ("extra", Json.null)]
        ⟨200, "", Json.null⟩).1.body = some (Json.obj d) ∧
      lookupField d "content" = some (Json.str "c") ∧
      lookupField d "pinned" = some (Json.bool true)) ∧
    (∃ d, (CapsuleMemoryClient.search (mkClient "http://h" "k" "o" "p" "s")
        "q" none [("limit", Json.num 3)] ⟨200, "", Json.null⟩).1.body =
        some (Json.obj d) ∧
      lookupField d "query" = some (Json.str "q")) :=
  explicit_fields_precedence (mkClient "http://h" "k" "o" "p" "s") "c" true
    [("tags", Json.arr []), ("extra", Json.null)] "q" none
    [("limit", Json.num 3)] ⟨200, "", Json.null⟩
    (by decide) (by decide)

/-- C8: `store_memory(content="hello", pinned=True)` sends a POST to
`/v1/memories` whose JSON body is exactly
`{"content": "hello", "pinned": true}`, and returns the server's `data`
field unmodified. -/
theorem store_memory_roundtrip (cfg : ClientConfig) (resp : HttpResponse)
    (fs : List (String × Json)) (v : Json)
    (hstatus : resp.status_code < 400)
    (hjson : resp.json = Json.obj fs)
    (hdata : lookupField fs "data" = some v) :
    (CapsuleMemoryClient.store_memory cfg "hello" true [] resp).1.method = "POST" ∧
    (CapsuleMemoryClient.store_memory cfg "hello" true [] resp).1.url =
      cfg.base_url ++ "/v1/memories" ∧
    (CapsuleMemoryClient.store_memory cfg "hello" true [] resp).1.body =
      some (Json.obj [("content", Json.str "hello"), ("pinned", Json.bool true)]) ∧
    (CapsuleMemoryClient.store_memory cfg "hello" true [] resp).2 = .ok v := by
  refine ⟨rfl, rfl, rfl, ?_⟩
  have hb : (CapsuleMemoryClient.store_memory cfg "hello" true [] resp).2 =
      CapsuleMemoryClient.handleResponse resp := rfl
  rw [hb]
  unfold CapsuleMemoryClient.handleResponse
  rw [if_neg (by omega), hjson]
  simp [hdata]

/-- C8 witness: the round trip at a concrete 200 response
`{"data": "mem-1"}`. -/
theorem store_memory_roundtrip_witness :
    (CapsuleMemoryClient.store_memory (mkClient "http://h" "k" "o" "p" "s")
        "hello" true [] ⟨200, "", Json.obj [("data", Json.str "mem-1")]⟩).2 =
      .ok (Json.str "mem-1") :=
  (store_memory_roundtrip (mkClient "http://h" "k" "o" "p" "s")
    ⟨200, "", Json.obj [("data", Json.str "mem-1")]⟩
    [("data", Json.str "mem-1")] (Json.str "mem-1")
    (by decide) rfl rfl).2.2.2

/-- C9: `approve_capture_candidate("abc123")` with no overrides sends a POST
whose body is exactly `{"memory": null}` to
`/v1/memories/capture/abc123/approve`. -/
theorem approve_request_shape (cfg : ClientConfig) (sid : Option String)
    (resp : HttpResponse) :
    (CapsuleMemoryClient.approve_capture_candidate cfg "abc123" none sid resp).1.method
        = "POST" ∧
    (CapsuleMemoryClient.approve_capture_candidate cfg "abc123" none sid resp).1.url
        = cfg.base_url ++ "/v1/memories/capture/abc123/approve" ∧
    (CapsuleMemoryClient.approve_capture_candidate cfg "abc123" none sid resp).1.body
        = some (Json.obj [("memory", Json.null)]) :=
  ⟨rfl, rfl, rfl⟩

/-- C6: when the payload's `items` array holds N objects that each have all
required fields but lack `reasons`, `metadata` and `autoAccepted`,
`list_capture_candidates` returns exactly N records, in array order, each
with `reasons = []`, `metadata = {}` and `auto_accepted = false`. -/
theorem candidates_default_fields (cfg : ClientConfig) (status : String)
    (limit : Int) (sid : Option String) (resp : HttpResponse)
    (fs : List (String × Json)) (items : List Json)
    (hpayload : CapsuleMemoryClient.handleResponse resp = .ok (Json.obj fs))
    (hitems : lookupField fs "items" = some (Json.arr items))
    (hshape : ∀ j ∈ items, ∃ ifs, j = Json.obj ifs ∧
      (∃ v, lookupField ifs "id" = some v) ∧
      (∃ v, lookupField ifs "role" = some v) ∧
      (∃ v, lookupField ifs "content" = some v) ∧
      (∃ v, lookupField ifs "status" = some v) ∧
      (∃ v, lookupField ifs "score" = some v) ∧
      (∃ v, lookupField ifs "threshold" = some v) ∧
      (∃ v, lookupField ifs "recommended" = some v) ∧
      lookupField ifs "reasons" = none ∧
      lookupField ifs "metadata" = none ∧
      lookupField ifs "autoAccepted" = none) :
    ∃ cands,
      (CapsuleMemoryClient.list_capture_candidates cfg status limit sid resp).2 =
        .ok cands ∧
      cands.length = items.length ∧
      (∀ (i : ℕ) (h : i < items.length) (h' : i < cands.length),
        CapsuleMemoryClient.decodeCandidate (items.get ⟨i, h⟩) =
          .ok (cands.get ⟨i, h'⟩)) ∧
      ∀ c ∈ cands, c.reasons = Json.arr [] ∧ c.metadata = Json.obj [] ∧
        c.auto_accepted = Json.bool false := by
  have hall : ∀ j ∈ items, ∃ c, CapsuleMemoryClient.decodeCandidate j = .ok c ∧
      (c.reasons = Json.arr [] ∧ c.metadata = Json.obj [] ∧
        c.auto_accepted = Json.bool false) := by
    intro j hj
    obtain ⟨ifs, rfl, hfOne, hfTwo, hfThree, hfFour, hfFive, hfSix, hfSeven, hfEight, hfNine, hfTen⟩ := hshape j hj
    exact CapsuleMemoryClient.decodeCandidate_defaults ifs hfOne hfTwo hfThree hfFour hfFive hfSix hfSeven
      hfEight hfNine hfTen
  obtain ⟨cands, hmap, hlen, hpt, hP⟩ :=
    mapExcept_ok_of_forall _ CapsuleMemoryClient.decodeCandidate items hall
  refine ⟨cands, ?_, hlen, hpt, hP⟩
  have hb : (CapsuleMemoryClient.list_capture_candidates cfg status limit sid resp).2 =
      CapsuleMemoryClient.handleResponse resp >>= fun p =>
        CapsuleMemoryClient.list_capture_candidates_decode p := rfl
  rw [hb, hpayload, bind_ok_iff]
  refine ⟨Json.obj fs, rfl, ?_⟩
  unfold CapsuleMemoryClient.list_capture_candidates_decode
  rw [bind_ok_iff]
  refine ⟨Json.arr items, by simp [Json.pyGetD, hitems], ?_⟩
  rw [bind_ok_iff]
  exact ⟨items, rfl, hmap⟩

/-- C6 witness: one item with the seven required fields and no `reasons`,
`metadata`, `autoAccepted` decodes into one defaulted record. -/
theorem candidates_default_fields_witness :
    ∃ cands,
      (CapsuleMemoryClient.list_capture_candidates
        (mkClient "http://h" "k" "o" "p" "s") "pending" 50 none
        ⟨200, "", Json.obj [("items", Json.arr [Json.obj
          [("id", Json.str "c1"), ("role", Json.str "user"),
           ("content", Json.str "hi"), ("status", Json.str "pending"),
           ("score", Json.num 1), ("threshold", Json.num 0),
           ("recommended", Json.bool true)]])]⟩).2 = .ok cands ∧
      cands.length = [Json.obj
          [("id", Json.str "c1"), ("role", Json.str "user"),
           ("content", Json.str "hi"), ("status", Json.str "pending"),
           ("score", Json.num 1), ("threshold", Json.num 0),
           ("recommended", Json.bool true)]].length ∧
      (∀ (i : ℕ) (h : i < [Json.obj
          [("id", Json.str "c1"), ("role", Json.str "user"),
           ("content", Json.str "hi"), ("status", Json.str "pending"),
           ("score", Json.num 1), ("threshold", Json.num 0),
           ("recommended", Json.bool true)]].length) (h' : i < cands.length),
        CapsuleMemoryClient.decodeCandidate ([Json.obj
          [("id", Json.str "c1"), ("role", Json.str "user"),
           ("content", Json.str "hi"), ("status", Json.str "pending"),
           ("score", Json.num 1), ("threshold", Json.num 0),
           ("recommended", Json.bool true)]].get ⟨i, h⟩) =
          .ok (cands.get ⟨i, h'⟩)) ∧
      ∀ c ∈ cands, c.reasons = Json.arr [] ∧ c.metadata = Json.obj [] ∧
        c.auto_accepted = Json.bool false :=
  candidates_default_fields (mkClient "http://h" "k" "o" "p" "s") "pending" 50
    none _ [("items", Json.arr [Json.obj
      [("id", Json.str "c1"), ("role", Json.str "user"),
       ("content", Json.str "hi"), ("status", Json.str "pending"),
       ("score", Json.num 1), ("threshold", Json.num 0),
       ("recommended", Json.bool true)]])] _ rfl rfl
    (by
      intro j hj
      rcases List.mem_singleton.mp hj with rfl
      refine ⟨_, rfl, ⟨_, rfl⟩, ⟨_, rfl⟩, ⟨_, rfl⟩, ⟨_, rfl⟩, ⟨_, rfl⟩,
        ⟨_, rfl⟩, ⟨_, rfl⟩, rfl, rfl, rfl⟩)

/-- C7: a score result missing `status`, `recommended` or `score`, or a
candidate missing `id`, `role`, `content`, `status`, `score`, `threshold` or
`recommended`, makes the whole decode fail with a `KeyError` (the client's
decode error) and no record list is returned; with the required fields
present, every optional field that is absent defaults per field — to `null`,
`[]`, `""`, `{}` or `false` — without failing. -/
theorem required_vs_optional_fields :
    (∀ fs, (lookupField fs "status" = none ∨
        lookupField fs "recommended" = none ∨
        lookupField fs "score" = none) →
      (∃ k, CapsuleMemoryClient.decodeScoreResult (Json.obj fs) =
        .error (.keyError k)) ∧
      ∀ r, CapsuleMemoryClient.decodeScoreResult (Json.obj fs) ≠ .ok r) ∧
    (∀ fs, (lookupField fs "id" = none ∨ lookupField fs "role" = none ∨
        lookupField fs "content" = none ∨ lookupField fs "status" = none ∨
        lookupField fs "score" = none ∨ lookupField fs "threshold" = none ∨
        lookupField fs "recommended" = none) →
      (∃ k, CapsuleMemoryClient.decodeCandidate (Json.obj fs) =
        .error (.keyError k)) ∧
      ∀ c, CapsuleMemoryClient.decodeCandidate (Json.obj fs) ≠ .ok c) ∧
    (∀ (items : List Json) fs, Json.obj fs ∈ items →
      (lookupField fs "status" = none ∨
        lookupField fs "recommended" = none ∨
        lookupField fs "score" = none) →
      ∀ l, mapExcept CapsuleMemoryClient.decodeScoreResult items ≠ .ok l) ∧
    (∀ (items : List Json) fs, Json.obj fs ∈ items →
      (lookupField fs "id" = none ∨ lookupField fs "role" = none ∨
        lookupField fs "content" = none ∨ lookupField fs "status" = none ∨
        lookupField fs "score" = none ∨ lookupField fs "threshold" = none ∨
        lookupField fs "recommended" = none) →
      ∀ l, mapExcept CapsuleMemoryClient.decodeCandidate items ≠ .ok l) ∧
    (∀ fs vstatus vrec vscore,
      lookupField fs "status" = some vstatus →
      lookupField fs "recommended" = some vrec →
      lookupField fs "score" = some vscore →
      lookupField fs "eventId" = none →
      lookupField fs "candidateId" = none →
      lookupField fs "reasons" = none →
      lookupField fs "memoryId" = none →
      CapsuleMemoryClient.decodeScoreResult (Json.obj fs) =
        .ok ⟨Json.null, Json.null, vstatus, vrec, vscore, Json.arr [],
          Json.null⟩) ∧
    (∀ fs vid vrole vcontent vstatus vscore vthr vrec,
      lookupField fs "id" = some vid →
      lookupField fs "role" = some vrole →
      lookupField fs "content" = some vcontent →
      lookupField fs "status" = some vstatus →
      lookupField fs "score" = some vscore →
      lookupField fs "threshold" = some vthr →
      lookupField fs "recommended" = some vrec →
      lookupField fs "category" = none →
      lookupField fs "reasons" = none →
      lookupField fs "metadata" = none →
      lookupField fs "memoryId" = none →
      lookupField fs "autoAccepted" = none →
      lookupField fs "autoDecisionReason" = none →
      lookupField fs "createdAt" = none →
      lookupField fs "updatedAt" = none →
      CapsuleMemoryClient.decodeCandidate (Json.obj fs) =
        .ok ⟨vid, vrole, vcontent, vstatus, vscore, vthr, vrec, Json.str "",
          Json.arr [], Json.obj [], Json.null, Json.bool false, Json.null,
          Json.str "", Json.str ""⟩) := by
  have hs : ∀ fs, (lookupField fs "status" = none ∨
      lookupField fs "recommended" = none ∨ lookupField fs "score" = none) →
      (∃ k, CapsuleMemoryClient.decodeScoreResult (Json.obj fs) =
        .error (.keyError k)) ∧
      ∀ r, CapsuleMemoryClient.decodeScoreResult (Json.obj fs) ≠ .ok r := by
    intro fs h
    obtain ⟨k, _, hk⟩ := CapsuleMemoryClient.decodeScoreResult_missing fs h
    exact ⟨⟨k, hk⟩, fun r hr => by rw [hk] at hr; exact Except.noConfusion hr⟩
  have hc : ∀ fs, (lookupField fs "id" = none ∨ lookupField fs "role" = none ∨
      lookupField fs "content" = none ∨ lookupField fs "status" = none ∨
      lookupField fs "score" = none ∨ lookupField fs "threshold" = none ∨
      lookupField fs "recommended" = none) →
      (∃ k, CapsuleMemoryClient.decodeCandidate (Json.obj fs) =
        .error (.keyError k)) ∧
      ∀ c, CapsuleMemoryClient.decodeCandidate (Json.obj fs) ≠ .ok c := by
    intro fs h
    obtain ⟨k, _, hk⟩ := CapsuleMemoryClient.decodeCandidate_missing fs h
    exact ⟨⟨k, hk⟩, fun c hcc => by rw [hk] at hcc; exact Except.noConfusion hcc⟩
  refine ⟨hs, hc, ?_, ?_, ?_, ?_⟩
  · intro items fs hmem hmiss l hl
    obtain ⟨y, hy⟩ :=
      mapExcept_ok_mem CapsuleMemoryClient.decodeScoreResult items l hl
        (Json.obj fs) hmem
    exact (hs fs hmiss).2 y hy
  · intro items fs hmem hmiss l hl
    obtain ⟨y, hy⟩ :=
      mapExcept_ok_mem CapsuleMemoryClient.decodeCandidate items l hl
        (Json.obj fs) hmem
    exact (hc fs hmiss).2 y hy
  · intro fs vstatus vrec vscore hfOne hfTwo hfThree hfFour hfFive hfSix hfSeven
    simp [CapsuleMemoryClient.decodeScoreResult, Json.pyGet, Json.pyGetD,
      Json.pyItem, hfOne, hfTwo, hfThree, hfFour, hfFive, hfSix, hfSeven, bind, Except.bind, pure,
      Except.pure]
  · intro fs vid vrole vcontent vstatus vscore vthr vrec
      hfOne hfTwo hfThree hfFour hfFive hfSix hfSeven hfEight hfNine hfTen hfMem hfAuto hfAdr hfCre hfUpd
    simp [CapsuleMemoryClient.decodeCandidate, Json.pyGet, Json.pyGetD,
      Json.pyItem, hfOne, hfTwo, hfThree, hfFour, hfFive, hfSix, hfSeven, hfEight, hfNine, hfTen, hfMem, hfAuto, hfAdr,
      hfCre, hfUpd, bind, Except.bind, pure, Except.pure]

/-- C7 witness: the empty object fails to decode as a score result, and a
three-field object with only the required score-result fields decodes with
all optional fields defaulted. -/
theorem required_vs_optional_fields_witness :
    CapsuleMemoryClient.decodeScoreResult (Json.obj []) ≠
      .ok ⟨Json.null, Json.null, Json.null, Json.null, Json.null,
        Json.arr [], Json.null⟩ ∧
    CapsuleMemoryClient.decodeScoreResult (Json.obj
        [("status", Json.str "stored"), ("recommended", Json.bool true),
         ("score", Json.num 1)]) =
      .ok ⟨Json.null, Json.null, Json.str "stored", Json.bool true,
        Json.num 1, Json.arr [], Json.null⟩ :=
  ⟨(required_vs_optional_fields.1 [] (Or.inl rfl)).2 _,
   required_vs_optional_fields.2.2.2.2.1
     [("status", Json.str "stored"), ("recommended", Json.bool true),
      ("score", Json.num 1)]
     (Json.str "stored") (Json.bool true) (Json.num 1)
     rfl rfl rfl rfl rfl rfl rfl⟩

/-- C10: every successful payload lacking a `results` key makes
`score_capture` return an empty results list, and — independently — every
successful payload lacking an `items` key makes `list_capture_candidates`
return the empty list; both calls succeed silently rather than failing with
a decode error.  The two halves quantify over their own payloads, with no
hypothesis about the other method's key. -/
theorem missing_results_items_silent :
    (∀ (cfg : ClientConfig) (events : List Json) (th : Option ℚ)
        (sid : Option String) (resp : HttpResponse)
        (fs : List (String × Json)),
      CapsuleMemoryClient.handleResponse resp = .ok (Json.obj fs) →
      lookupField fs "results" = none →
      (CapsuleMemoryClient.score_capture cfg events th sid resp).2 =
        .ok ⟨(lookupField fs "threshold").getD
          (Json.num (pyOrFloat th 0.6)), []⟩) ∧
    (∀ (cfg : ClientConfig) (status : String) (limit : Int)
        (sid : Option String) (resp : HttpResponse)
        (fs : List (String × Json)),
      CapsuleMemoryClient.handleResponse resp = .ok (Json.obj fs) →
      lookupField fs "items" = none →
      (CapsuleMemoryClient.list_capture_candidates cfg status limit sid resp).2 =
        .ok []) := by
  constructor
  · intro cfg events th sid resp fs hpayload hres
    have hb : (CapsuleMemoryClient.score_capture cfg events th sid resp).2 =
        CapsuleMemoryClient.handleResponse resp >>= fun p =>
          CapsuleMemoryClient.score_capture_decode th p := rfl
    rw [hb, hpayload]
    simp [bind, Except.bind, CapsuleMemoryClient.score_capture_decode,
      Json.pyGetD, hres, Json.asIter, mapExcept, pure, Except.pure]
  · intro cfg status limit sid resp fs hpayload hitems
    have hb : (CapsuleMemoryClient.list_capture_candidates cfg status limit sid resp).2 =
        CapsuleMemoryClient.handleResponse resp >>= fun p =>
          CapsuleMemoryClient.list_capture_candidates_decode p := rfl
    rw [hb, hpayload]
    simp [bind, Except.bind, CapsuleMemoryClient.list_capture_candidates_decode,
      Json.pyGetD, hitems, Json.asIter, mapExcept]

/-- C10 witness: a 200 payload that lacks `results` but HAS an `items` key
yields an empty score-result list, and a 200 payload that lacks `items` but
has a `results` key yields an empty candidate list. -/
theorem missing_results_items_silent_witness :
    (CapsuleMemoryClient.score_capture (mkClient "http://h" "k" "o" "p" "s")
        [] none none ⟨200, "", Json.obj [("items", Json.arr [Json.null])]⟩).2 =
      .ok ⟨(lookupField [("items", Json.arr [Json.null])] "threshold").getD
        (Json.num (pyOrFloat none 0.6)), []⟩ ∧
    (CapsuleMemoryClient.list_capture_candidates
        (mkClient "http://h" "k" "o" "p" "s") "pending" 50 none
        ⟨200, "", Json.obj [("results", Json.arr [Json.null])]⟩).2 = .ok [] :=
  ⟨missing_results_items_silent.1 (mkClient "http://h" "k" "o" "p" "s") []
    none none ⟨200, "", Json.obj [("items", Json.arr [Json.null])]⟩
    [("items", Json.arr [Json.null])] rfl rfl,
   missing_results_items_silent.2 (mkClient "http://h" "k" "o" "p" "s")
    "pending" 50 none ⟨200, "", Json.obj [("results", Json.arr [Json.null])]⟩
    [("results", Json.arr [Json.null])] rfl rfl⟩

end CapsuleMemory
